import Mathlib

/-!
Verification of the social-network-api route handlers.

The repository is an Express + Mongoose CRUD API over two collections
(users and thoughts, the latter with embedded reactions).  We embed the
data model declared in the mongoose schemas and the route handlers of
`src/routes/api/userRoutes.js`, `src/routes/api/thoughtRoutes.js` and the
sibling handler iterations, as pure functions from an explicit store to a
response-and-store pair.  ObjectIds are modelled as naturals; the store
carries a fresh-id counter standing for ObjectId generation at document
creation.  Timestamps are naturals passed in explicitly.
-/

/-- A Reaction subdocument, per `reactionSchema`: `reactionId` (ObjectId),
`username` (required String), `reactionBody` (required, maxlength 280),
`createdAt` (Date). -/
structure Reaction where
  reactionId : Nat
  username : String
  reactionBody : String
  createdAt : Nat
deriving DecidableEq, Repr

/-- A Thought document, per `thoughtSchema`: `thoughtText` (required,
maxLength 280), `createdAt`, `username` (required), embedded `reactions`.
`tid` is the document `_id`. -/
structure Thought where
  tid : Nat
  thoughtText : String
  username : String
  createdAt : Nat
  reactions : List Reaction
deriving DecidableEq, Repr

/-- `reactionCount` virtual on `thoughtSchema`. -/
def Thought.reactionCount (t : Thought) : Nat :=
  t.reactions.length

/-- A User document, per `userSchema`: unique `username`, unique `email`
(matched against a pattern), `thoughts` (list of Thought ObjectIds),
`friends` (list of User ObjectIds).  `uid` is the document `_id`. -/
structure User where
  uid : Nat
  username : String
  email : String
  thoughts : List Nat
  friends : List Nat
deriving DecidableEq, Repr

/-- `friendCount` virtual on `userSchema`. -/
def User.friendCount (u : User) : Nat :=
  u.friends.length

/-- The database: the users collection, the thoughts collection, and a
counter from which fresh document ObjectIds are drawn. -/
structure Store where
  users : List User
  thoughts : List Thought
  nextId : Nat
deriving DecidableEq, Repr

/-- Well-formed store: document `_id`s are unique within each collection
(MongoDB's `_id` index guarantees this). -/
def Store.wf (s : Store) : Prop :=
  (s.users.map User.uid).Nodup ∧ (s.thoughts.map Thought.tid).Nodup

instance (s : Store) : Decidable s.wf := by
  unfold Store.wf; infer_instance

/-- An HTTP response as produced by the handlers: `res.json` (200),
`res.status(201).json` (201), `res.status(404).json({message})` (404; the
`notFoundPayload` form additionally spreads an entity into the body, as
`createThought` does), `res.status(409).json({message})` (409),
`res.status(500)` (500), and `res.json(null)` for a 200 whose body is the
JSON literal `null`. -/
inductive HttpOutcome (α : Type) where
  | json : α → HttpOutcome α
  | jsonNull : HttpOutcome α
  | created : α → HttpOutcome α
  | notFound : String → HttpOutcome α
  | notFoundPayload : String → α → HttpOutcome α
  | conflict : String → HttpOutcome α
  | serverError : HttpOutcome α
deriving DecidableEq, Repr

/-- The HTTP status code of an outcome. -/
def HttpOutcome.statusOf {α : Type} : HttpOutcome α → Nat
  | .json _ => 200
  | .jsonNull => 200
  | .created _ => 201
  | .notFound _ => 404
  | .notFoundPayload _ _ => 404
  | .conflict _ => 409
  | .serverError => 500

/-- `Model.findOne({_id})` on the users collection. -/
def findUser (s : Store) (userId : Nat) : Option User :=
  s.users.find? (fun u => u.uid == userId)

/-- `Model.findOne({_id})` on the thoughts collection. -/
def findThought (s : Store) (thoughtId : Nat) : Option Thought :=
  s.thoughts.find? (fun t => t.tid == thoughtId)

/-- `findOneAndUpdate` semantics on a list: apply `fn` to the first
element satisfying `p`, leave the rest untouched. -/
def updateFirst {α : Type} (p : α → Bool) (fn : α → α) : List α → List α
  | [] => []
  | x :: xs => if p x then fn x :: xs else x :: updateFirst p fn xs

/-- Word characters of the email pattern `\w`: letters, digits, `_`. -/
def isWordChar (c : Char) : Bool :=
  c.isAlphanum || c == '_'

/-- Characters admitted by `[\w-\.]` (local part of the email pattern). -/
def isLocalChar (c : Char) : Bool :=
  isWordChar c || c == '-' || c == '.'

/-- Characters admitted by `[\w-]` (domain labels of the email pattern). -/
def isLabelChar (c : Char) : Bool :=
  isWordChar c || c == '-'

/-- Split a character list at every occurrence of `sep`. -/
def splitOnChar (sep : Char) : List Char → List (List Char)
  | [] => [[]]
  | c :: cs =>
    let rest := splitOnChar sep cs
    if c == sep then [] :: rest
    else
      match rest with
      | [] => [[c]]
      | p :: ps => (c :: p) :: ps

/-- The `userSchema` email pattern `/^[\w-\.]+@([\w-]+\.)+[\w-]{2,4}$/`:
a nonempty local part of `[\w-\.]`, one `@`, one or more nonempty
`[\w-]` labels each followed by a dot, then a final label of 2 to 4
`[\w-]` characters. -/
def emailValid (e : String) : Bool :=
  match splitOnChar '@' e.toList with
  | [localPart, domain] =>
    (!localPart.isEmpty) && localPart.all isLocalChar &&
    (match (splitOnChar '.' domain).reverse with
     | tld :: labels =>
       (!labels.isEmpty) &&
       labels.all (fun l => !l.isEmpty && l.all isLabelChar) &&
       decide (2 ≤ tld.length) && decide (tld.length ≤ 4) && tld.all isLabelChar
     | [] => false)
  | _ => false

/-- Body of a user create/update request; each field may be absent. -/
structure UserBody where
  username : Option String
  email : Option String
deriving DecidableEq, Repr

/-- The ways `User.create` can reject a document: an `E11000` duplicate-key
error naming the colliding field and value, or a `ValidationError`
(missing required field or email-pattern mismatch). -/
inductive CreateErr where
  | dupKey : String → String → CreateErr
  | validation : CreateErr
deriving DecidableEq, Repr

/-- `User.create(req.body)`: validation (required `username`, required
pattern-matched `email`) runs first; then the unique indexes on `username`
and `email` reject duplicates with `E11000`, whose `keyPattern`/`keyValue`
name the colliding field.  A fresh `_id` is drawn from the counter and the
`thoughts` and `friends` arrays default to empty. -/
def userCreate (s : Store) (body : UserBody) : Except CreateErr (User × Store) :=
  match body.username, body.email with
  | some un, some em =>
    if un == "" then .error .validation
    else if !(emailValid em) then .error .validation
    else if s.users.any (fun u => u.username == un) then .error (.dupKey "username" un)
    else if s.users.any (fun u => u.email == em) then .error (.dupKey "email" em)
    else
      let u : User := { uid := s.nextId, username := un, email := em, thoughts := [], friends := [] }
      .ok (u, { s with users := s.users ++ [u], nextId := s.nextId + 1 })
  | _, _ => .error .validation

/-- `createUser` of `src/unnamed/part_003` (the handler iteration wired to
`POST /api/users` that implements conflict reporting): `User.create`, then
201 with the user; on an `E11000` error, 409 with a message naming the
colliding field and value; every other error becomes a 500. -/
def createUser (s : Store) (body : UserBody) : HttpOutcome User × Store :=
  match userCreate s body with
  | .ok (u, s') => (.created u, s')
  | .error (.dupKey f v) =>
    if f == "username" then (.conflict ("username " ++ v ++ " already in use"), s)
    else if f == "email" then (.conflict ("email " ++ v ++ " already in use"), s)
    else (.serverError, s)
  | .error .validation => (.serverError, s)

/-- `getSingleUser` of `src/routes/api/userRoutes.js`:
`User.findOne({_id}).select('-__v')`, 404 when no user matches.  (The
`__v` version key is not part of the model, so `select` is the
identity.) -/
def getSingleUser (s : Store) (userId : Nat) : HttpOutcome User × Store :=
  match findUser s userId with
  | none => (.notFound "No user with that ID", s)
  | some u => (.json u, s)

/-- `updateUser` of `src/routes/api/userRoutes.js` (`PUT /users/:userId`):
the body runs `User.create(req.body)` and returns the result — the
`userId` route parameter is never read. -/
def updateUser (s : Store) (_userId : Nat) (body : UserBody) : HttpOutcome User × Store :=
  match userCreate s body with
  | .ok (u, s') => (.json u, s')
  | .error _ => (.serverError, s)

/-- `deleteUser` of `src/routes/api/userRoutes.js`:
`User.findOneAndDelete({_id})` (404 when none matches), then
`Thought.deleteMany({_id: {$in: user.thoughts}})`. -/
def deleteUser (s : Store) (userId : Nat) : HttpOutcome String × Store :=
  match findUser s userId with
  | none => (.notFound "No user with that ID", s)
  | some u =>
    let s1 : Store := { s with users := s.users.eraseP (fun v => v.uid == userId) }
    let s2 : Store := { s1 with thoughts := s1.thoughts.filter (fun t => !(u.thoughts.contains t.tid)) }
    (.json "User and associated thoughts deleted!", s2)

/-- `$addToSet: {friends: friendId}` on one user document: append the id
only when it is not already present. -/
def addToSetFriend (u : User) (friendId : Nat) : User :=
  if u.friends.contains friendId then u
  else { u with friends := u.friends ++ [friendId] }

/-- `removeFriend` of `src/routes/api/userRoutes.js`
(`DELETE /users/:userId/friends/:friendId`): the body runs
`User.findOneAndUpdate({_id}, {$addToSet: {friends: friendId}}, {new:true})`
— an add-to-set update, not a pull — and 404s only when no user matches
the id. -/
def removeFriend (s : Store) (userId friendId : Nat) : HttpOutcome User × Store :=
  match findUser s userId with
  | none => (.notFound "No user with that ID", s)
  | some u =>
    (.json (addToSetFriend u friendId),
     { s with users := updateFirst (fun v => v.uid == userId) (fun v => addToSetFriend v friendId) s.users })

/-- Body of a thought create/update request. -/
structure ThoughtBody where
  thoughtText : Option String
  username : Option String
  userId : Nat
deriving DecidableEq, Repr

/-- `Thought.create(req.body)`: validation (required nonempty
`thoughtText` of at most 280 characters, required nonempty `username`)
runs first; a fresh `_id` is drawn from the counter, `createdAt` is set to
the current time and `reactions` defaults to empty.  The body's `userId`
field is not a schema path and is discarded. -/
def thoughtCreate (s : Store) (body : ThoughtBody) (now : Nat) :
    Except CreateErr (Thought × Store) :=
  match body.thoughtText, body.username with
  | some txt, some un =>
    if txt == "" then .error .validation
    else if 280 < txt.length then .error .validation
    else if un == "" then .error .validation
    else
      let t : Thought := { tid := s.nextId, thoughtText := txt, username := un,
                           createdAt := now, reactions := [] }
      .ok (t, { s with thoughts := s.thoughts ++ [t], nextId := s.nextId + 1 })
  | _, _ => .error .validation

/-- `$addToSet: {thoughts: thoughtId}` on one user document. -/
def addToSetThought (u : User) (thoughtId : Nat) : User :=
  if u.thoughts.contains thoughtId then u
  else { u with thoughts := u.thoughts ++ [thoughtId] }

/-- The message `createThought` attaches when the author lookup fails. -/
def linkFailMsg : String :=
  "Thought created, but found no user with that ID and username"

/-- `createThought` of `src/routes/api/thoughtRoutes.js`:
`Thought.create(req.body)`, then
`User.findOneAndUpdate({_id: userId, username}, {$addToSet: {thoughts: _id}})`.
When no user matches both the id and the username, the response is
`res.status(404)` carrying the message and the created thought's fields;
otherwise `res.status(201).json(thought)`. -/
def createThought (s : Store) (body : ThoughtBody) (now : Nat) :
    HttpOutcome Thought × Store :=
  match thoughtCreate s body now with
  | .error _ => (.serverError, s)
  | .ok (t, s1) =>
    let matchesAuthor := fun (u : User) => u.uid == body.userId && u.username == t.username
    match s1.users.find? matchesAuthor with
    | none => (.notFoundPayload linkFailMsg t, s1)
    | some _ =>
      (.created t,
       { s1 with users := updateFirst matchesAuthor (fun v => addToSetThought v t.tid) s1.users })

/-- `getSingleThought` of `src/routes/api/thoughtRoutes.js`:
`Thought.findOne({_id}).select('-__v')`, 404 when no thought matches. -/
def getSingleThought (s : Store) (thoughtId : Nat) : HttpOutcome Thought × Store :=
  match findThought s thoughtId with
  | none => (.notFound "No thought with that ID", s)
  | some t => (.json t, s)

/-- `updateThought` of `src/routes/api/thoughtRoutes.js`:
`Thought.findOneAndUpdate({_id}, {thoughtText}, {runValidators, new:true})`
followed by `res.json(thought)` unconditionally — when no thought matches,
the response is a 200 whose body is `null`, not a 404.  Update validation
(nonempty, at most 280 characters) runs before the query. -/
def updateThought (s : Store) (thoughtId : Nat) (newText : String) :
    HttpOutcome Thought × Store :=
  if newText == "" then (.serverError, s)
  else if 280 < newText.length then (.serverError, s)
  else
    match findThought s thoughtId with
    | none => (.jsonNull, s)
    | some t =>
      let t' : Thought := { t with thoughtText := newText }
      (.json t',
       { s with thoughts := updateFirst (fun x => x.tid == thoughtId)
                              (fun x => { x with thoughtText := newText }) s.thoughts })

/-- `User.updateMany({}, {$pull: {thoughts: thoughtId}})`: remove the id
from every user's `thoughts` array. -/
def scrubThoughtId (s : Store) (thoughtId : Nat) : Store :=
  { s with users := s.users.map (fun u => { u with thoughts := u.thoughts.filter (fun x => x != thoughtId) }) }

/-- `deleteThought` of `src/routes/api/thoughtRoutes.js`:
`Thought.findOneAndDelete({_id})`; when a thought matched, scrub its id
from every user's `thoughts` array and answer 200; when none matched, run
the same scrub anyway ("in case it's still there") and answer 404. -/
def deleteThought (s : Store) (thoughtId : Nat) : HttpOutcome String × Store :=
  match findThought s thoughtId with
  | none => (.notFound "No thought with that ID", scrubThoughtId s thoughtId)
  | some _ =>
    let s1 : Store := { s with thoughts := s.thoughts.eraseP (fun t => t.tid == thoughtId) }
    (.json "Successfully deleted.", scrubThoughtId s1 thoughtId)

/-- Body of an add-reaction request; the caller may also supply a
`reactionId`, which is a `reactionSchema` path and is then cast and
stored. -/
structure ReactionBody where
  reactionBody : Option String
  username : Option String
  reactionId : Option Nat
deriving DecidableEq, Repr

/-- The `reactionId` default of `reactionSchema` is written
`default: new mongoose.Types.ObjectId()` — the ObjectId is constructed
once, when the schema module is loaded, and that same value is the default
for every reaction document cast afterwards.  It is a fixed constant of
the process, modelled here as a fixed natural. -/
def reactionIdDefault : Nat := 0

/-- Casting a request body through `reactionSchema`: required nonempty
`username`, required nonempty `reactionBody` of at most 280 characters; a
missing `reactionId` falls back to the schema-load-time default constant,
and `createdAt` defaults to the current time. -/
def castReaction (body : ReactionBody) (now : Nat) : Option Reaction :=
  match body.reactionBody, body.username with
  | some rb, some un =>
    if rb == "" then none
    else if 280 < rb.length then none
    else if un == "" then none
    else some { reactionId := body.reactionId.getD reactionIdDefault,
                username := un, reactionBody := rb, createdAt := now }
  | _, _ => none

/-- `$addToSet: {reactions: doc}` on one thought document: append the cast
subdocument only when an identical one is not already present. -/
def addToSetReaction (t : Thought) (r : Reaction) : Thought :=
  if t.reactions.contains r then t
  else { t with reactions := t.reactions ++ [r] }

/-- `addReaction` of `src/routes/api/thoughtRoutes.js`:
`Thought.findOneAndUpdate({_id}, {$addToSet: {reactions: req.body}},
{runValidators, new:true})`; 404 when no thought matches; validation
failure of the cast body becomes a 500. -/
def addReaction (s : Store) (thoughtId : Nat) (body : ReactionBody) (now : Nat) :
    HttpOutcome Thought × Store :=
  match castReaction body now with
  | none => (.serverError, s)
  | some r =>
    match findThought s thoughtId with
    | none => (.notFound "No thought with that ID", s)
    | some t =>
      (.json (addToSetReaction t r),
       { s with thoughts := updateFirst (fun x => x.tid == thoughtId)
                              (fun x => addToSetReaction x r) s.thoughts })

/-- `$pull: {reactions: {reactionId}}` on one thought document: drop every
embedded reaction whose `reactionId` matches. -/
def pullReaction (t : Thought) (reactionId : Nat) : Thought :=
  { t with reactions := t.reactions.filter (fun r => r.reactionId != reactionId) }

/-- `removeReaction` of `src/routes/api/thoughtRoutes.js`:
`Thought.findOneAndUpdate({_id}, {$pull: {reactions: {reactionId}}},
{new:true})`; 404 when no thought matches the id. -/
def removeReaction (s : Store) (thoughtId reactionId : Nat) :
    HttpOutcome Thought × Store :=
  match findThought s thoughtId with
  | none => (.notFound "No thought with that ID", s)
  | some t =>
    (.json (pullReaction t reactionId),
     { s with thoughts := updateFirst (fun x => x.tid == thoughtId)
                            (fun x => pullReaction x reactionId) s.thoughts })

/-! ### List lemmas shared by the handler proofs -/

/-- After erasing the (first, hence only) element whose `f`-image is `b`
from a list whose `f`-images are pairwise distinct, no element with
`f`-image `b` remains. -/
theorem find?_eraseP_eq_none {α β : Type} [DecidableEq β] (f : α → β) (b : β)
    (l : List α) (h : (l.map f).Nodup) :
    (l.eraseP (fun x => f x == b)).find? (fun x => f x == b) = none := by
  induction l with
  | nil => rfl
  | cons a l ih =>
    rw [List.map_cons, List.nodup_cons] at h
    by_cases hpa : f a = b
    · rw [List.eraseP_cons_of_pos (by simp [hpa])]
      rw [List.find?_eq_none]
      intro x hx
      simp only [beq_iff_eq]
      intro hfx
      exact h.1 (hpa ▸ hfx ▸ List.mem_map_of_mem f hx)
    · rw [List.eraseP_cons_of_neg (by simp [hpa])]
      rw [List.find?_cons_of_neg _ (by simp [hpa])]
      exact ih h.2

/-- An element not matched by `p` survives `eraseP p`. -/
theorem mem_eraseP_of_not_pred {α : Type} {p : α → Bool} {l : List α} {x : α}
    (hx : x ∈ l) (hp : p x = false) : x ∈ l.eraseP p := by
  induction l with
  | nil => cases hx
  | cons a l ih =>
    by_cases hpa : p a = true
    · rw [List.eraseP_cons_of_pos hpa]
      rcases List.mem_cons.mp hx with rfl | hmem
      · rw [hp] at hpa; cases hpa
      · exact hmem
    · rw [List.eraseP_cons_of_neg hpa]
      rcases List.mem_cons.mp hx with rfl | hmem
      · exact List.mem_cons_self _ _
      · exact List.mem_cons_of_mem _ (ih hmem)

/-- `find?` after `updateFirst` on the same predicate: the first match is
the transformed one, provided the transformation preserves the
predicate. -/
theorem find?_updateFirst {α : Type} (p : α → Bool) (fn : α → α) (l : List α)
    (hp : ∀ x, p x = true → p (fn x) = true) :
    (updateFirst p fn l).find? p = (l.find? p).map fn := by
  induction l with
  | nil => rfl
  | cons a l ih =>
    by_cases hpa : p a = true
    · rw [updateFirst, if_pos hpa, List.find?_cons_of_pos _ (hp a hpa),
        List.find?_cons_of_pos _ hpa, Option.map_some']
    · rw [updateFirst, if_neg hpa,
        List.find?_cons_of_neg _ hpa, List.find?_cons_of_neg _ hpa]
      exact ih

/-- `updateFirst` is the identity when the transformation fixes whatever
`find?` returns. -/
theorem updateFirst_eq_self {α : Type} (p : α → Bool) (fn : α → α) (l : List α)
    (h : ∀ x, l.find? p = some x → fn x = x) : updateFirst p fn l = l := by
  induction l with
  | nil => rfl
  | cons a l ih =>
    by_cases hpa : p a = true
    · rw [updateFirst, if_pos hpa, h a (List.find?_cons_of_pos _ hpa)]
    · rw [updateFirst, if_neg hpa]
      refine congrArg (a :: ·) (ih fun x hx => h x ?_)
      rw [List.find?_cons_of_neg _ hpa]
      exact hx

/-! ### C1 -/

/-- C1: refuted on the code.  The claim says `PUT /users/:userId` applies
a partial update of {username, email} to the identified User, creates no
new User and modifies no other User.  The handler's body is
`User.create(req.body)`: on a store holding only user 0, an update request
for user 0 leaves user 0 untouched and inserts a brand-new user 1 built
from the request body. -/
theorem updateUser_creates_instead_of_updating :
    updateUser
        { users := [{ uid := 0, username := "ben", email := "ben@mail.com",
                      thoughts := [], friends := [] }],
          thoughts := [], nextId := 1 }
        0 { username := some "rook", email := some "rook@mail.com" } =
      (.json { uid := 1, username := "rook", email := "rook@mail.com",
               thoughts := [], friends := [] },
       { users := [{ uid := 0, username := "ben", email := "ben@mail.com",
                     thoughts := [], friends := [] },
                   { uid := 1, username := "rook", email := "rook@mail.com",
                     thoughts := [], friends := [] }],
         thoughts := [], nextId := 2 }) := by
  decide

/-! ### C2 -/

/-- C2: refuted on the code.  The claim says
`DELETE /users/:userId/friends/:friendId` leaves the user's friends set
without the friend id.  The handler's update is
`$addToSet: {friends: friendId}` — a copy-paste of `addFriend` — so
removing an absent friend id 9 from user 5 *adds* it, and removing the
then-present 9 again keeps it present. -/
theorem removeFriend_adds_instead_of_removing :
    (removeFriend
        { users := [{ uid := 5, username := "ann", email := "ann@mail.com",
                      thoughts := [], friends := [] }],
          thoughts := [], nextId := 6 } 5 9).2.users =
      [{ uid := 5, username := "ann", email := "ann@mail.com",
         thoughts := [], friends := [9] }] ∧
    (removeFriend
        { users := [{ uid := 5, username := "ann", email := "ann@mail.com",
                      thoughts := [], friends := [9] }],
          thoughts := [], nextId := 6 } 5 9).2.users =
      [{ uid := 5, username := "ann", email := "ann@mail.com",
         thoughts := [], friends := [9] }] := by
  decide

/-! ### C3 -/

/-- C3: refuted on the code.  The claim says every stored Reaction carries
a fresh identifier distinct from all reaction ids already on the Thought.
Because `reactionSchema`'s `reactionId` default is constructed once at
schema-definition time, two successive add-reaction requests (neither
supplying an id) store two reactions bearing the *same* id — the
schema-load constant — so the second id is not distinct from the first. -/
theorem addReaction_default_id_not_fresh :
    ((findThought
        (addReaction
          (addReaction
            { users := [],
              thoughts := [{ tid := 3, thoughtText := "t", username := "ben",
                             createdAt := 0, reactions := [] }],
              nextId := 4 }
            3 { reactionBody := some "first", username := some "ann", reactionId := none } 1).2
          3 { reactionBody := some "second", username := some "bob", reactionId := none } 2).2
        3).map (fun t => t.reactions.map Reaction.reactionId)) =
      some [reactionIdDefault, reactionIdDefault] := by
  decide

/-! ### C7 -/

/-- C7: refuted on the code (missing-id branch).  The claim says
`PUT /thoughts/:thoughtId` on a nonexistent id reports NotFound.  The
handler runs `res.json(thought)` without a null check, so on an empty
store the response is a 200 whose body is the JSON literal `null`; the
store is left unchanged. -/
theorem updateThought_nonexistent_returns_null_200 :
    updateThought { users := [], thoughts := [], nextId := 0 } 3 "hello" =
      (.jsonNull, { users := [], thoughts := [], nextId := 0 }) ∧
    (HttpOutcome.jsonNull : HttpOutcome Thought).statusOf = 200 := by
  decide

/-! ### C8 -/

/-- C8: counterexample.  The claim says that when the {userId, username}
pair of a create-thought request resolves to no User, the response is a
success-class outcome (HTTP 200/201).  On an empty store the handler does
create the thought and attach the explanatory message, but it sends it
with `res.status(404)` — an error status. -/
theorem createThought_linkfail_status_is_404 :
    createThought { users := [], thoughts := [], nextId := 0 }
        { thoughtText := some "hi", username := some "ben", userId := 9 } 0 =
      (.notFoundPayload linkFailMsg
         { tid := 0, thoughtText := "hi", username := "ben", createdAt := 0, reactions := [] },
       { users := [],
         thoughts := [{ tid := 0, thoughtText := "hi", username := "ben",
                        createdAt := 0, reactions := [] }],
         nextId := 1 }) ∧
    (HttpOutcome.notFoundPayload linkFailMsg
        ({ tid := 0, thoughtText := "hi", username := "ben", createdAt := 0,
           reactions := [] } : Thought)).statusOf = 404 := by
  decide

/-- C8 (amended): for every create-thought request with a valid body whose
{userId, username} pair resolves to no existing User, the Thought is still
created (it is appended to the thoughts collection) and the response
carries the created Thought together with the explanatory linkage message
— but under HTTP status 404, an error status, rather than 200/201; the
outcome is still distinguishable from full success (201 with the bare
Thought) and from full failure (500 with nothing created). -/
theorem createThought_partial_success (s : Store) (txt un : String) (uid now : Nat)
    (h1 : (txt == "") = false) (h2 : txt.length ≤ 280) (h3 : (un == "") = false)
    (h4 : s.users.find? (fun u => u.uid == uid && u.username == un) = none) :
    createThought s { thoughtText := some txt, username := some un, userId := uid } now =
      (.notFoundPayload linkFailMsg
         { tid := s.nextId, thoughtText := txt, username := un, createdAt := now,
           reactions := [] },
       { s with
         thoughts := s.thoughts ++
           [{ tid := s.nextId, thoughtText := txt, username := un, createdAt := now,
              reactions := [] }],
         nextId := s.nextId + 1 }) ∧
    ({ tid := s.nextId, thoughtText := txt, username := un, createdAt := now,
       reactions := [] } : Thought) ∈
      (createThought s { thoughtText := some txt, username := some un, userId := uid } now).2.thoughts ∧
    (createThought s { thoughtText := some txt, username := some un, userId := uid } now).1.statusOf = 404 := by
  have hc : thoughtCreate s { thoughtText := some txt, username := some un, userId := uid } now =
      .ok ({ tid := s.nextId, thoughtText := txt, username := un, createdAt := now,
             reactions := [] },
           { s with
             thoughts := s.thoughts ++
               [{ tid := s.nextId, thoughtText := txt, username := un, createdAt := now,
                  reactions := [] }],
             nextId := s.nextId + 1 }) := by
    unfold thoughtCreate
    dsimp only
    rw [if_neg (by simp [h1]), if_neg (Nat.not_lt.mpr h2), if_neg (by simp [h3])]
  have hmain : createThought s { thoughtText := some txt, username := some un, userId := uid } now =
      (.notFoundPayload linkFailMsg
         { tid := s.nextId, thoughtText := txt, username := un, createdAt := now,
           reactions := [] },
       { s with
         thoughts := s.thoughts ++
           [{ tid := s.nextId, thoughtText := txt, username := un, createdAt := now,
              reactions := [] }],
         nextId := s.nextId + 1 }) := by
    unfold createThought
    rw [hc]
    dsimp only
    rw [h4]
  refine ⟨hmain, ?_, ?_⟩
  · rw [hmain]
    exact List.mem_append_right _ (List.mem_singleton_self _)
  · rw [hmain]
    rfl

/-- Witness for the amended C8 theorem at a concrete input. -/
theorem createThought_partial_success_witness :
    (createThought { users := [], thoughts := [], nextId := 0 }
        { thoughtText := some "hi", username := some "ben", userId := 9 } 0).1.statusOf = 404 ∧
    ({ tid := 0, thoughtText := "hi", username := "ben", createdAt := 0,
       reactions := [] } : Thought) ∈
      (createThought { users := [], thoughts := [], nextId := 0 }
        { thoughtText := some "hi", username := some "ben", userId := 9 } 0).2.thoughts := by
  have h := createThought_partial_success { users := [], thoughts := [], nextId := 0 }
    "hi" "ben" 9 0 (by decide) (by decide) (by decide) rfl
  exact ⟨h.2.2, h.2.1⟩

/-! ### C4 -/

/-- C4: creating a User whose username collides with an existing one (all
other fields valid) yields a 409 Conflict whose message names "username";
a colliding email yields a 409 naming "email"; and a Conflict outcome
arises only from a username or email collision — no other failure is
reported as a Conflict. -/
theorem createUser_conflict_spec (s : Store) (body : UserBody) (un em : String)
    (hun : body.username = some un) (hem : body.email = some em)
    (hne : (un == "") = false) (hv : emailValid em = true) :
    (s.users.any (fun u => u.username == un) = true →
       (createUser s body).1 = .conflict ("username " ++ un ++ " already in use")) ∧
    (s.users.any (fun u => u.username == un) = false →
     s.users.any (fun u => u.email == em) = true →
       (createUser s body).1 = .conflict ("email " ++ em ++ " already in use")) ∧
    (∀ (s' : Store) (b : UserBody) (msg : String),
       (createUser s' b).1 = .conflict msg →
       ∃ un' em', b.username = some un' ∧ b.email = some em' ∧
         (s'.users.any (fun u => u.username == un') = true ∨
          s'.users.any (fun u => u.email == em') = true)) := by
  refine ⟨?_, ?_, ?_⟩
  · intro hdup
    unfold createUser userCreate
    rw [hun, hem]
    dsimp only
    rw [if_neg (by simp [hne]), if_neg (by simp [hv]), if_pos hdup]
    rfl
  · intro hnodup hdup
    unfold createUser userCreate
    rw [hun, hem]
    dsimp only
    rw [if_neg (by simp [hne]), if_neg (by simp [hv]), if_neg (by simp [hnodup]),
      if_pos hdup]
    rfl
  · intro s' b msg h
    unfold createUser userCreate at h
    rcases hbu : b.username with _ | un'
    · rw [hbu] at h
      dsimp only at h
      cases h
    · rcases hbe : b.email with _ | em'
      · rw [hbu, hbe] at h
        dsimp only at h
        cases h
      · rw [hbu, hbe] at h
        dsimp only at h
        refine ⟨un', em', rfl, rfl, ?_⟩
        by_cases hc1 : (un' == "") = true
        · rw [if_pos hc1] at h; cases h
        · rw [if_neg hc1] at h
          by_cases hc2 : (!(emailValid em')) = true
          · rw [if_pos hc2] at h; cases h
          · rw [if_neg hc2] at h
            by_cases hc3 : s'.users.any (fun u => u.username == un') = true
            · exact Or.inl hc3
            · rw [if_neg (by simp [hc3])] at h
              by_cases hc4 : s'.users.any (fun u => u.email == em') = true
              · exact Or.inr hc4
              · rw [if_neg (by simp [hc4])] at h
                cases h

/-- Witness for the C4 theorem at a concrete input: a duplicate username
yields the 409 message naming "username". -/
theorem createUser_conflict_spec_witness :
    (createUser
        { users := [{ uid := 0, username := "ben", email := "ben@mail.com",
                      thoughts := [], friends := [] }],
          thoughts := [], nextId := 1 }
        { username := some "ben", email := some "new@mail.com" }).1 =
      .conflict ("username " ++ "ben" ++ " already in use") := by
  have h := createUser_conflict_spec
    { users := [{ uid := 0, username := "ben", email := "ben@mail.com",
                  thoughts := [], friends := [] }],
      thoughts := [], nextId := 1 }
    { username := some "ben", email := some "new@mail.com" }
    "ben" "new@mail.com" rfl rfl (by decide) (by decide)
  exact h.1 (by decide)

/-! ### C5 -/

/-- C5: deleting a User cascades.  When the id resolves, the handler
answers 200, the User no longer resolves, and every Thought id listed in
the User's `thoughts` collection no longer resolves via get-by-id (404);
when the id resolves to no User, the handler answers 404 and the store is
left entirely unchanged. -/
theorem deleteUser_cascade_spec (s : Store) (userId : Nat) (hwf : s.wf) :
    (∀ u, findUser s userId = some u →
       (deleteUser s userId).1 = .json "User and associated thoughts deleted!" ∧
       findUser (deleteUser s userId).2 userId = none ∧
       (∀ tid ∈ u.thoughts,
          (getSingleThought (deleteUser s userId).2 tid).1 =
            .notFound "No thought with that ID")) ∧
    (findUser s userId = none →
       deleteUser s userId = (.notFound "No user with that ID", s)) := by
  constructor
  · intro u hu
    have hres : deleteUser s userId =
        (.json "User and associated thoughts deleted!",
         { users := s.users.eraseP (fun v => v.uid == userId),
           thoughts := s.thoughts.filter (fun t => !(u.thoughts.contains t.tid)),
           nextId := s.nextId }) := by
      unfold deleteUser
      rw [hu]
    refine ⟨by rw [hres], ?_, ?_⟩
    · unfold findUser
      rw [hres]
      exact find?_eraseP_eq_none User.uid userId s.users hwf.1
    · intro tid htid
      have hnone : List.find? (fun t => t.tid == tid)
          (s.thoughts.filter (fun t => !(u.thoughts.contains t.tid))) = none := by
        rw [List.find?_eq_none]
        intro t ht hbeq
        have hmem := (List.mem_filter.mp ht).2
        rw [Bool.not_eq_true'] at hmem
        have heq : t.tid = tid := by simpa using hbeq
        have hcont : u.thoughts.contains t.tid = true := by
          rw [heq]; exact List.elem_iff.mpr htid
        rw [hcont] at hmem
        cases hmem
      unfold getSingleThought findThought
      rw [hres]
      rw [hnone]
  · intro hnone
    unfold deleteUser
    rw [hnone]

/-- Witness for the C5 theorem: deleting user 1, whose thoughts list holds
ids 2 and 3, makes user 1 and thought 2 unresolvable, and a missing user
id is a 404. -/
theorem deleteUser_cascade_spec_witness :
    (deleteUser
        { users := [{ uid := 1, username := "ben", email := "ben@mail.com",
                      thoughts := [2, 3], friends := [] }],
          thoughts := [{ tid := 2, thoughtText := "a", username := "ben",
                         createdAt := 0, reactions := [] },
                       { tid := 3, thoughtText := "b", username := "ben",
                         createdAt := 0, reactions := [] }],
          nextId := 4 } 1).1 = .json "User and associated thoughts deleted!" ∧
    findUser
      (deleteUser
        { users := [{ uid := 1, username := "ben", email := "ben@mail.com",
                      thoughts := [2, 3], friends := [] }],
          thoughts := [{ tid := 2, thoughtText := "a", username := "ben",
                         createdAt := 0, reactions := [] },
                       { tid := 3, thoughtText := "b", username := "ben",
                         createdAt := 0, reactions := [] }],
          nextId := 4 } 1).2 1 = none ∧
    (getSingleThought
      (deleteUser
        { users := [{ uid := 1, username := "ben", email := "ben@mail.com",
                      thoughts := [2, 3], friends := [] }],
          thoughts := [{ tid := 2, thoughtText := "a", username := "ben",
                         createdAt := 0, reactions := [] },
                       { tid := 3, thoughtText := "b", username := "ben",
                         createdAt := 0, reactions := [] }],
          nextId := 4 } 1).2 2).1 = .notFound "No thought with that ID" := by
  have h := deleteUser_cascade_spec
    { users := [{ uid := 1, username := "ben", email := "ben@mail.com",
                  thoughts := [2, 3], friends := [] }],
      thoughts := [{ tid := 2, thoughtText := "a", username := "ben",
                     createdAt := 0, reactions := [] },
                   { tid := 3, thoughtText := "b", username := "ben",
                     createdAt := 0, reactions := [] }],
      nextId := 4 } 1 (by decide)
  have hfound := h.1
    { uid := 1, username := "ben", email := "ben@mail.com",
      thoughts := [2, 3], friends := [] } (by decide)
  exact ⟨hfound.1, hfound.2.1, hfound.2.2 2 (by decide)⟩

/-! ### C6 -/

/-- C6: after delete-thought, no User's `thoughts` collection contains the
deleted id; the scrub runs over all Users even when no Thought matched (in
which case a 404 is reported); and every User whose `thoughts` collection
did not contain the id is left entirely unchanged (same position, same
record). -/
theorem deleteThought_scrub_spec (s : Store) (thoughtId : Nat) :
    (∀ v ∈ (deleteThought s thoughtId).2.users, thoughtId ∉ v.thoughts) ∧
    (deleteThought s thoughtId).2.users.length = s.users.length ∧
    (∀ (i : Nat) (u v : User), s.users[i]? = some u →
       (deleteThought s thoughtId).2.users[i]? = some v →
       thoughtId ∉ u.thoughts → v = u) ∧
    (findThought s thoughtId = none →
       (deleteThought s thoughtId).1 = .notFound "No thought with that ID") := by
  have husers : (deleteThought s thoughtId).2.users =
      s.users.map (fun u => { u with thoughts := u.thoughts.filter (fun x => x != thoughtId) }) := by
    unfold deleteThought
    cases hf : findThought s thoughtId
    · rfl
    · rfl
  refine ⟨?_, ?_, ?_, ?_⟩
  · intro v hv hmem
    rw [husers] at hv
    obtain ⟨u, _, rfl⟩ := List.mem_map.mp hv
    have := (List.mem_filter.mp hmem).2
    simp at this
  · rw [husers, List.length_map]
  · intro i u v hu hv hno
    rw [husers, List.getElem?_map, hu, Option.map_some', Option.some.injEq] at hv
    have hfix : u.thoughts.filter (fun x => x != thoughtId) = u.thoughts := by
      rw [List.filter_eq_self]
      intro a ha
      rw [bne_iff_ne]
      rintro rfl
      exact hno ha
    rw [← hv, hfix]
  · intro hnone
    unfold deleteThought
    rw [hnone]

/-- Witness for the C6 theorem: deleting thought 7 scrubs it from user 1's
list, leaves user 2 (which did not hold 7) unchanged, and a miss on the
thought id still answers 404. -/
theorem deleteThought_scrub_spec_witness :
    (∀ v ∈ (deleteThought
        { users := [{ uid := 1, username := "a", email := "a@mail.com",
                      thoughts := [7], friends := [] },
                    { uid := 2, username := "b", email := "b@mail.com",
                      thoughts := [8], friends := [] }],
          thoughts := [], nextId := 9 } 7).2.users, (7 : Nat) ∉ v.thoughts) ∧
    ((deleteThought
        { users := [{ uid := 1, username := "a", email := "a@mail.com",
                      thoughts := [7], friends := [] },
                    { uid := 2, username := "b", email := "b@mail.com",
                      thoughts := [8], friends := [] }],
          thoughts := [], nextId := 9 } 7).2.users[1]? =
      some { uid := 2, username := "b", email := "b@mail.com",
             thoughts := [8], friends := [] }) ∧
    (deleteThought
        { users := [{ uid := 1, username := "a", email := "a@mail.com",
                      thoughts := [7], friends := [] },
                    { uid := 2, username := "b", email := "b@mail.com",
                      thoughts := [8], friends := [] }],
          thoughts := [], nextId := 9 } 7).1 = .notFound "No thought with that ID" := by
  have h := deleteThought_scrub_spec
    { users := [{ uid := 1, username := "a", email := "a@mail.com",
                  thoughts := [7], friends := [] },
                { uid := 2, username := "b", email := "b@mail.com",
                  thoughts := [8], friends := [] }],
      thoughts := [], nextId := 9 } 7
  refine ⟨h.1, ?_, h.2.2.2 (by decide)⟩
  have := h.2.2.1 1
    { uid := 2, username := "b", email := "b@mail.com", thoughts := [8], friends := [] }
  cases hv : (deleteThought
      { users := [{ uid := 1, username := "a", email := "a@mail.com",
                    thoughts := [7], friends := [] },
                  { uid := 2, username := "b", email := "b@mail.com",
                    thoughts := [8], friends := [] }],
        thoughts := [], nextId := 9 } 7).2.users[1]? with
  | none =>
    have hlen := h.2.1
    rw [List.getElem?_eq_none_iff] at hv
    rw [hlen] at hv
    simp at hv
  | some v =>
    rw [this v (by decide) hv (by decide)]

/-! ### C9 -/

/-- C9: remove-reaction.  A miss on the thought id is a 404 that leaves
the store unchanged.  On a hit, the stored thought keeps exactly the
reactions whose `reactionId` differs from the given one (so none with the
given id remains and all others survive), the 200 response carries that
updated thought, and when no reaction matched the operation is a no-op
success returning the thought and the unchanged store. -/
theorem removeReaction_spec (s : Store) (thoughtId reactionId : Nat) :
    (findThought s thoughtId = none →
       removeReaction s thoughtId reactionId = (.notFound "No thought with that ID", s)) ∧
    (∀ t, findThought s thoughtId = some t →
       (removeReaction s thoughtId reactionId).1 = .json (pullReaction t reactionId) ∧
       findThought (removeReaction s thoughtId reactionId).2 thoughtId =
         some (pullReaction t reactionId) ∧
       (∀ r ∈ (pullReaction t reactionId).reactions, r.reactionId ≠ reactionId) ∧
       (∀ r ∈ t.reactions, r.reactionId ≠ reactionId →
          r ∈ (pullReaction t reactionId).reactions) ∧
       ((∀ r ∈ t.reactions, r.reactionId ≠ reactionId) →
          removeReaction s thoughtId reactionId = (.json t, s))) := by
  constructor
  · intro hnone
    unfold removeReaction
    rw [hnone]
  · intro t ht
    have hres : removeReaction s thoughtId reactionId =
        (.json (pullReaction t reactionId),
         { s with thoughts := updateFirst (fun x => x.tid == thoughtId)
                                (fun x => pullReaction x reactionId) s.thoughts }) := by
      unfold removeReaction
      rw [ht]
    refine ⟨by rw [hres], ?_, ?_, ?_, ?_⟩
    · rw [hres]
      unfold findThought
      rw [find?_updateFirst (fun x => x.tid == thoughtId)
            (fun x => pullReaction x reactionId) s.thoughts (fun x hx => hx)]
      unfold findThought at ht
      rw [ht, Option.map_some']
    · intro r hr
      have := (List.mem_filter.mp hr).2
      rwa [bne_iff_ne] at this
    · intro r hr hne
      exact List.mem_filter.mpr ⟨hr, bne_iff_ne.mpr hne⟩
    · intro hnomatch
      have hfix : pullReaction t reactionId = t := by
        unfold pullReaction
        rw [List.filter_eq_self.mpr (fun r hr => bne_iff_ne.mpr (hnomatch r hr))]
      rw [hres, hfix,
        updateFirst_eq_self (fun x => x.tid == thoughtId)
          (fun x => pullReaction x reactionId) s.thoughts (fun x hx => ?_)]
      unfold findThought at ht
      rw [ht, Option.some.injEq] at hx
      rw [← hx]
      exact hfix

/-- Witness for the C9 theorem: on a thought holding reactions with ids 1
and 2, removing id 1 keeps exactly the id-2 reaction, and a miss on the
thought id is a 404. -/
theorem removeReaction_spec_witness :
    (removeReaction
        { users := [],
          thoughts := [{ tid := 3, thoughtText := "t", username := "ben", createdAt := 0,
                         reactions := [{ reactionId := 1, username := "a",
                                         reactionBody := "x", createdAt := 0 },
                                       { reactionId := 2, username := "b",
                                         reactionBody := "y", createdAt := 0 }] }],
          nextId := 4 } 3 1).1 =
      .json (pullReaction
        { tid := 3, thoughtText := "t", username := "ben", createdAt := 0,
          reactions := [{ reactionId := 1, username := "a",
                          reactionBody := "x", createdAt := 0 },
                        { reactionId := 2, username := "b",
                          reactionBody := "y", createdAt := 0 }] } 1) ∧
    removeReaction { users := [], thoughts := [], nextId := 0 } 3 1 =
      (.notFound "No thought with that ID", { users := [], thoughts := [], nextId := 0 }) := by
  constructor
  · exact ((removeReaction_spec
      { users := [],
        thoughts := [{ tid := 3, thoughtText := "t", username := "ben", createdAt := 0,
                       reactions := [{ reactionId := 1, username := "a",
                                       reactionBody := "x", createdAt := 0 },
                                     { reactionId := 2, username := "b",
                                       reactionBody := "y", createdAt := 0 }] }],
        nextId := 4 } 3 1).2
      { tid := 3, thoughtText := "t", username := "ben", createdAt := 0,
        reactions := [{ reactionId := 1, username := "a",
                        reactionBody := "x", createdAt := 0 },
                      { reactionId := 2, username := "b",
                        reactionBody := "y", createdAt := 0 }] } (by decide)).1
  · exact (removeReaction_spec { users := [], thoughts := [], nextId := 0 } 3 1).1 rfl

/-! ### C10 -/

/-- C10: delete-user leaves every other User untouched.  For distinct
users, deleting one leaves the other present as the very same record —
in particular a friends entry referencing the deleted id survives as a
dangling reference, while the deleted id itself no longer resolves. -/
theorem deleteUser_dangling_friend (s : Store) (userId : Nat) (u v : User)
    (hwf : s.wf) (hu : findUser s userId = some u)
    (hv : v ∈ s.users) (hne : v.uid ≠ userId) (hf : userId ∈ v.friends) :
    v ∈ (deleteUser s userId).2.users ∧ userId ∈ v.friends ∧
    findUser (deleteUser s userId).2 userId = none := by
  have hres : (deleteUser s userId).2.users =
      s.users.eraseP (fun x => x.uid == userId) := by
    unfold deleteUser
    rw [hu]
  refine ⟨?_, hf, ?_⟩
  · rw [hres]
    exact mem_eraseP_of_not_pred hv (by simp [hne])
  · unfold findUser
    rw [hres]
    exact find?_eraseP_eq_none User.uid userId s.users hwf.1

/-- Witness for the C10 theorem: deleting user 1 leaves user 2, whose
friends list holds 1, exactly as it was, while user 1 no longer
resolves. -/
theorem deleteUser_dangling_friend_witness :
    ({ uid := 2, username := "b", email := "b@mail.com",
       thoughts := [], friends := [1] } : User) ∈
      (deleteUser
        { users := [{ uid := 1, username := "a", email := "a@mail.com",
                      thoughts := [], friends := [] },
                    { uid := 2, username := "b", email := "b@mail.com",
                      thoughts := [], friends := [1] }],
          thoughts := [], nextId := 3 } 1).2.users ∧
    findUser
      (deleteUser
        { users := [{ uid := 1, username := "a", email := "a@mail.com",
                      thoughts := [], friends := [] },
                    { uid := 2, username := "b", email := "b@mail.com",
                      thoughts := [], friends := [1] }],
          thoughts := [], nextId := 3 } 1).2 1 = none := by
  have h := deleteUser_dangling_friend
    { users := [{ uid := 1, username := "a", email := "a@mail.com",
                  thoughts := [], friends := [] },
                { uid := 2, username := "b", email := "b@mail.com",
                  thoughts := [], friends := [1] }],
      thoughts := [], nextId := 3 } 1
    { uid := 1, username := "a", email := "a@mail.com", thoughts := [], friends := [] }
    { uid := 2, username := "b", email := "b@mail.com", thoughts := [], friends := [1] }
    (by decide) (by decide) (by decide) (by decide) (by decide)
  exact ⟨h.1, h.2.2⟩
